import Mathlib

/-!
Shallow embedding of `src/test_web/src-tauri/src/main.rs`: a single-instance
supervisor for an external `websocat` child process.  The shared state is
`Arc<Mutex<Option<CommandChild>>>`; we model it as `Option CommandChild` and
each Tauri command as a function from the state (plus the outcomes of the
external spawn/kill system calls, passed in as parameters) to its result and
the state after the call.  Lock acquisition is modelled as always succeeding
(a poisoned mutex requires a prior panic, which the modelled code never does).
-/

/-- Embedding of `tauri::api::process::CommandChild` as far as the code uses
it: the only data read from a stored handle is its process id (`child.pid()`,
a `u32`, modelled as `Nat`). -/
structure CommandChild where
  pid : Nat
deriving DecidableEq, Repr

/-- Embedding of `WebsocatState`: the contents of the
`Arc<Mutex<Option<CommandChild>>>` cell.  `none` means no process is
tracked (Idle); `some c` means handle `c` is stored (Running). -/
abbrev WebsocatState := Option CommandChild

/-- Initial state installed by `main` via `Mutex::new(None)`. -/
def initial_state : WebsocatState := none

/-- Argument list the code builds for the child, from
`ws_listen = format!("ws-l:0.0.0.0:{}", ws_port)` and
`tcp_target = format!("tcp:{}:{}", tcp_host, tcp_port)` and the call
`.args(["--text", &ws_listen, &tcp_target])`, with the defaults
`ws_port.unwrap_or(12346)`, `tcp_host.unwrap_or_else(|| "127.0.0.1")`,
`tcp_port.unwrap_or(12345)`. -/
def websocat_args (ws_port : Option Nat) (tcp_host : Option String)
    (tcp_port : Option Nat) : List String :=
  let ws_port := ws_port.getD 12346
  let tcp_host := tcp_host.getD "127.0.0.1"
  let tcp_port := tcp_port.getD 12345
  ["--text", "ws-l:0.0.0.0:" ++ toString ws_port,
   "tcp:" ++ tcp_host ++ ":" ++ toString tcp_port]

/-- Result of one call to `start_websocat`: the `Result<u32, String>` returned
to the caller, the contents of the state cell after the call, and the trace of
argument lists passed to the spawn system call during the call (so that the
child-invocation contract is visible in the embedding). -/
structure StartOut where
  result : Except String Nat
  state : WebsocatState
  spawnCalls : List (List String)
deriving Repr

/-- Embedding of `start_websocat`.  The two external effects are parameters:
`new_sidecar` is the outcome of `Command::new_sidecar("websocat")` and
`spawn` maps the argument list to the outcome of `.spawn()`.  The code first
checks the cell under the lock and fails with `"websocat已经在运行中"` if a
handle is present; otherwise it builds the argument list, creates the sidecar
command (failing with `"创建sidecar失败: " ++ e`), spawns it (failing with
`"启动websocat失败: " ++ e`), stores the handle under the lock, and returns
`child.pid()`. -/
def start_websocat (st : WebsocatState) (ws_port : Option Nat)
    (tcp_host : Option String) (tcp_port : Option Nat)
    (new_sidecar : Except String Unit)
    (spawn : List String → Except String CommandChild) : StartOut :=
  match st with
  | some c => ⟨.error "websocat已经在运行中", some c, []⟩
  | none =>
    match new_sidecar with
    | .error e => ⟨.error ("创建sidecar失败: " ++ e), none, []⟩
    | .ok _ =>
      let args := websocat_args ws_port tcp_host tcp_port
      match spawn args with
      | .error e => ⟨.error ("启动websocat失败: " ++ e), none, [args]⟩
      | .ok child => ⟨.ok child.pid, some child, [args]⟩

/-- Embedding of `stop_websocat`.  `kill` is the outcome of `child.kill()`.
The code does `child_guard.take()`: when a handle is present it is removed
from the cell first, and only then is the kill signal issued, so the cell is
empty after the call even when the kill fails with
`"停止websocat失败: " ++ e`.  With no handle the call fails with
`"websocat未在运行"` and the cell is untouched. -/
def stop_websocat (st : WebsocatState)
    (kill : CommandChild → Except String Unit) :
    Except String Unit × WebsocatState :=
  match st with
  | some child =>
    match kill child with
    | .error e => (.error ("停止websocat失败: " ++ e), none)
    | .ok _ => (.ok (), none)
  | none => (.error "websocat未在运行", none)

/-- Embedding of `is_websocat_running`: returns `Ok(child_guard.is_some())`
and only reads the cell. -/
def is_websocat_running (st : WebsocatState) :
    Except String Bool × WebsocatState :=
  (.ok st.isSome, st)

/-- Embedding of `get_websocat_pid`: returns
`Ok(child_guard.as_ref().map(|c| c.pid()))` and only reads the cell. -/
def get_websocat_pid (st : WebsocatState) :
    Except String (Option Nat) × WebsocatState :=
  (.ok (st.map fun c => c.pid), st)

/-- Events delivered on the spawned child's event channel
(`tauri::api::process::CommandEvent`), as far as the drain loop matches
them. -/
inductive CommandEvent where
  | stdout (line : String)
  | stderr (line : String)
  | terminated (code : Option Int) (signal : Option Int)
  | other
deriving DecidableEq, Repr

/-- Embedding of the detached drain task spawned by `start_websocat`
(`tauri::async_runtime::spawn`): it folds over the received events,
forwarding stdout lines to the info sink and stderr lines to the warning
sink, and stops at the first `Terminated` event after logging it.  Its
closure captures only the receiver `rx`; it has no access to the state
cell, so it returns only the emitted log lines. -/
def drain_task : List CommandEvent → List String
  | [] => []
  | e :: rest =>
    match e with
    | .stdout line => ("[websocat stdout] " ++ line) :: drain_task rest
    | .stderr line => ("[websocat stderr] " ++ line) :: drain_task rest
    | .terminated code signal =>
        ["[websocat] 进程退出: code=" ++ toString code
          ++ ", signal=" ++ toString signal]
    | .other => drain_task rest

/-- Labels for the transition system over the state cell: the four remote
operations with the outcomes of their external calls, plus the drain task
observing a `Terminated` event for a spontaneously exiting child. -/
inductive SupOp where
  | opStart (ws_port : Option Nat) (tcp_host : Option String)
      (tcp_port : Option Nat) (new_sidecar : Except String Unit)
      (spawn : List String → Except String CommandChild)
  | opStop (kill : CommandChild → Except String Unit)
  | opStatus
  | opGetPid
  | childExit (code : Option Int) (signal : Option Int)

/-- Effect of each operation on the state cell.  The `childExit` case leaves
the cell unchanged: the drain task's closure captures only the event
receiver, so observing a `Terminated` event performs no write to the cell. -/
def sup_step (st : WebsocatState) : SupOp → WebsocatState
  | .opStart ws_port tcp_host tcp_port new_sidecar spawn =>
      (start_websocat st ws_port tcp_host tcp_port new_sidecar spawn).state
  | .opStop kill => (stop_websocat st kill).2
  | .opStatus => (is_websocat_running st).2
  | .opGetPid => (get_websocat_pid st).2
  | .childExit _ _ => st

/-- C1: from the Idle state (no handle stored), a Start call whose sidecar
creation and spawn succeed with child `c` returns `Ok c.pid`, stores `c`,
and immediately afterwards Status returns true and Pid returns exactly the
identifier Start returned. -/
theorem start_from_idle_success (ws_port : Option Nat) (tcp_host : Option String)
    (tcp_port : Option Nat) (spawn : List String → Except String CommandChild)
    (c : CommandChild)
    (h : spawn (websocat_args ws_port tcp_host tcp_port) = .ok c) :
    (start_websocat none ws_port tcp_host tcp_port (.ok ()) spawn).result = .ok c.pid
    ∧ (start_websocat none ws_port tcp_host tcp_port (.ok ()) spawn).state = some c
    ∧ (is_websocat_running
        (start_websocat none ws_port tcp_host tcp_port (.ok ()) spawn).state).1 = .ok true
    ∧ (get_websocat_pid
        (start_websocat none ws_port tcp_host tcp_port (.ok ()) spawn).state).1
        = .ok (some c.pid) := by
  simp [start_websocat, h, is_websocat_running, get_websocat_pid]

/-- Witness for `start_from_idle_success` at a concrete spawn outcome. -/
theorem start_from_idle_success_witness :
    (start_websocat none none none none (.ok ()) (fun _ => .ok ⟨42⟩)).result = .ok 42
    ∧ (start_websocat none none none none (.ok ()) (fun _ => .ok ⟨42⟩)).state = some ⟨42⟩
    ∧ (is_websocat_running
        (start_websocat none none none none (.ok ()) (fun _ => .ok ⟨42⟩)).state).1 = .ok true
    ∧ (get_websocat_pid
        (start_websocat none none none none (.ok ()) (fun _ => .ok ⟨42⟩)).state).1
        = .ok (some 42) :=
  start_from_idle_success none none none (fun _ => .ok ⟨42⟩) ⟨42⟩ rfl

/-- C2: from any Running state (handle `c` stored), every Start call fails
with the AlreadyRunning error string, the stored handle is unchanged, and
Status still returns true afterwards. -/
theorem start_when_running_fails (c : CommandChild) (ws_port : Option Nat)
    (tcp_host : Option String) (tcp_port : Option Nat)
    (new_sidecar : Except String Unit)
    (spawn : List String → Except String CommandChild) :
    (start_websocat (some c) ws_port tcp_host tcp_port new_sidecar spawn).result
      = .error "websocat已经在运行中"
    ∧ (start_websocat (some c) ws_port tcp_host tcp_port new_sidecar spawn).state = some c
    ∧ (is_websocat_running
        (start_websocat (some c) ws_port tcp_host tcp_port new_sidecar spawn).state).1
        = .ok true := by
  simp [start_websocat, is_websocat_running]

/-- C3: for every combination of the three optional Start inputs, the spawn
system call is invoked exactly once, with exactly the argument list
`["--text", "ws-l:0.0.0.0:<listenPort>", "tcp:<targetHost>:<targetPort>"]`,
omitted inputs replaced by the defaults 12346, "127.0.0.1", 12345. -/
theorem start_child_invocation_args (ws_port : Option Nat)
    (tcp_host : Option String) (tcp_port : Option Nat)
    (spawn : List String → Except String CommandChild) :
    (start_websocat none ws_port tcp_host tcp_port (.ok ()) spawn).spawnCalls
      = [websocat_args ws_port tcp_host tcp_port]
    ∧ websocat_args ws_port tcp_host tcp_port
      = ["--text", "ws-l:0.0.0.0:" ++ toString (ws_port.getD 12346),
         "tcp:" ++ tcp_host.getD "127.0.0.1" ++ ":" ++ toString (tcp_port.getD 12345)]
    ∧ websocat_args none none none
      = ["--text", "ws-l:0.0.0.0:12346", "tcp:127.0.0.1:12345"] := by
  refine ⟨?_, rfl, rfl⟩
  cases hsp : spawn (websocat_args ws_port tcp_host tcp_port) <;>
    simp [start_websocat, hsp]

/-- C4: from the Idle state (no handle stored), every Stop call fails with
the NotRunning error string and Status still returns false afterwards. -/
theorem stop_when_idle_fails (kill : CommandChild → Except String Unit) :
    (stop_websocat none kill).1 = .error "websocat未在运行"
    ∧ (stop_websocat none kill).2 = none
    ∧ (is_websocat_running (stop_websocat none kill).2).1 = .ok false := by
  simp [stop_websocat, is_websocat_running]

/-- C5: from any Running state (handle `c` stored), after a Stop call whose
kill succeeds, the call returns Ok, Status returns false and Pid returns
empty. -/
theorem stop_success_clears_state (c : CommandChild)
    (kill : CommandChild → Except String Unit) (h : kill c = .ok ()) :
    (stop_websocat (some c) kill).1 = .ok ()
    ∧ (is_websocat_running (stop_websocat (some c) kill).2).1 = .ok false
    ∧ (get_websocat_pid (stop_websocat (some c) kill).2).1 = .ok none := by
  simp [stop_websocat, h, is_websocat_running, get_websocat_pid]

/-- Witness for `stop_success_clears_state` at a concrete kill outcome. -/
theorem stop_success_clears_state_witness :
    (stop_websocat (some ⟨7⟩) (fun _ => .ok ())).1 = .ok ()
    ∧ (is_websocat_running (stop_websocat (some ⟨7⟩) (fun _ => .ok ())).2).1 = .ok false
    ∧ (get_websocat_pid (stop_websocat (some ⟨7⟩) (fun _ => .ok ())).2).1 = .ok none :=
  stop_success_clears_state ⟨7⟩ (fun _ => .ok ()) rfl

/-- C6 counterexample: with handle pid 42 stored and a failing kill, Stop
returns an error yet the state after the call differs from the state before
it (the handle has been removed), refuting the claim that every erroring
operation leaves the stored state exactly as it was. -/
theorem stop_error_changes_state_counterexample :
    (stop_websocat (some ⟨42⟩) (fun _ => .error "EPERM")).1
      = .error "停止websocat失败: EPERM"
    ∧ (stop_websocat (some ⟨42⟩) (fun _ => .error "EPERM")).2 ≠ some ⟨42⟩ := by
  refine ⟨rfl, ?_⟩
  simp [stop_websocat]

/-- C6 amended: every erroring Start call, every erroring Stop call from the
Idle state, and every Status or Pid call leaves the stored state exactly as
it was before the call; the single exception is a Stop call from a Running
state whose kill fails, which returns the KillFailed error after the handle
has already been removed, so the state afterwards is Idle rather than the
state before the call. -/
theorem error_preserves_state_except_kill_failure :
    (∀ st ws_port tcp_host tcp_port new_sidecar spawn e,
      (start_websocat st ws_port tcp_host tcp_port new_sidecar spawn).result = .error e →
      (start_websocat st ws_port tcp_host tcp_port new_sidecar spawn).state = st)
    ∧ (∀ kill e, (stop_websocat none kill).1 = .error e →
        (stop_websocat none kill).2 = none)
    ∧ (∀ c kill e, (stop_websocat (some c) kill).1 = .error e →
        (stop_websocat (some c) kill).2 = none)
    ∧ (∀ st, (is_websocat_running st).2 = st ∧ (get_websocat_pid st).2 = st) := by
  refine ⟨?_, ?_, ?_, fun st => ⟨rfl, rfl⟩⟩
  · intro st ws_port tcp_host tcp_port new_sidecar spawn e h
    match st with
    | some c => rfl
    | none =>
      match new_sidecar with
      | .error e₀ => rfl
      | .ok _ =>
        cases hsp : spawn (websocat_args ws_port tcp_host tcp_port) <;>
          simp [start_websocat, hsp] at h ⊢
  · intro kill e _
    rfl
  · intro c kill e h
    cases hk : kill c <;> simp [stop_websocat, hk]

/-- Witness for `error_preserves_state_except_kill_failure` at concrete
inputs: an AlreadyRunning Start error and a kill-failure Stop error. -/
theorem error_preserves_state_except_kill_failure_witness :
    (start_websocat (some ⟨5⟩) none none none (.ok ())
      (fun _ => .error "x")).state = some ⟨5⟩
    ∧ (stop_websocat (some ⟨42⟩) (fun _ => .error "x")).2 = none :=
  ⟨error_preserves_state_except_kill_failure.1 (some ⟨5⟩) none none none
      (.ok ()) (fun _ => .error "x") "websocat已经在运行中" rfl,
    error_preserves_state_except_kill_failure.2.2.1 ⟨42⟩
      (fun _ => .error "x") "停止websocat失败: x" rfl⟩

/-- C7: from any Running state (handle `c` stored), a Stop call whose kill
fails returns the KillFailed error string, yet the handle has already been
removed: Status returns false and Pid returns empty afterwards. -/
theorem stop_kill_failure_still_clears_state (c : CommandChild)
    (kill : CommandChild → Except String Unit) (e : String)
    (h : kill c = .error e) :
    (stop_websocat (some c) kill).1 = .error ("停止websocat失败: " ++ e)
    ∧ (is_websocat_running (stop_websocat (some c) kill).2).1 = .ok false
    ∧ (get_websocat_pid (stop_websocat (some c) kill).2).1 = .ok none := by
  simp [stop_websocat, h, is_websocat_running, get_websocat_pid]

/-- Witness for `stop_kill_failure_still_clears_state` at a concrete failing
kill. -/
theorem stop_kill_failure_still_clears_state_witness :
    (stop_websocat (some ⟨9⟩) (fun _ => .error "EPERM")).1
      = .error ("停止websocat失败: " ++ "EPERM")
    ∧ (is_websocat_running (stop_websocat (some ⟨9⟩) (fun _ => .error "EPERM")).2).1
      = .ok false
    ∧ (get_websocat_pid (stop_websocat (some ⟨9⟩) (fun _ => .error "EPERM")).2).1
      = .ok none :=
  stop_kill_failure_still_clears_state ⟨9⟩ (fun _ => .error "EPERM") "EPERM" rfl

/-- C8: the supervisor is a two-state machine over the stored handle.  The
initial state installed by `main` is Idle; a Start call succeeds only from
Idle and a successful Start leaves the machine Running with the returned
pid's handle stored; a Stop call succeeds only from Running and a successful
Stop leaves the machine Idle; and the drain task observing a termination
event of the child causes no state transition. -/
theorem supervisor_two_state_machine :
    initial_state = none
    ∧ (∀ st ws_port tcp_host tcp_port new_sidecar spawn p,
        (start_websocat st ws_port tcp_host tcp_port new_sidecar spawn).result = .ok p →
        st = none ∧ ∃ c, sup_step st (.opStart ws_port tcp_host tcp_port new_sidecar spawn)
          = some c ∧ c.pid = p)
    ∧ (∀ st kill u, (stop_websocat st kill).1 = .ok u →
        (∃ c, st = some c) ∧ sup_step st (.opStop kill) = none)
    ∧ (∀ st code signal, sup_step st (.childExit code signal) = st) := by
  refine ⟨rfl, ?_, ?_, fun st code signal => rfl⟩
  · intro st ws_port tcp_host tcp_port new_sidecar spawn p h
    match st with
    | some c => simp [start_websocat] at h
    | none =>
      refine ⟨rfl, ?_⟩
      match new_sidecar with
      | .error e₀ => simp [start_websocat] at h
      | .ok _ =>
        cases hsp : spawn (websocat_args ws_port tcp_host tcp_port) with
        | error e => simp [start_websocat, hsp] at h
        | ok c =>
          refine ⟨c, ?_, ?_⟩
          · simp [sup_step, start_websocat, hsp]
          · simp [start_websocat, hsp] at h
            exact h
  · intro st kill u h
    match st with
    | none => simp [stop_websocat] at h
    | some c =>
      refine ⟨⟨c, rfl⟩, ?_⟩
      cases hk : kill c <;> simp [sup_step, stop_websocat, hk]

/-- Witness for `supervisor_two_state_machine` at concrete inputs: a
successful Start from Idle and a successful Stop from Running. -/
theorem supervisor_two_state_machine_witness :
    ((none : WebsocatState) = none
      ∧ ∃ c, sup_step none (.opStart none none none (.ok ()) (fun _ => .ok ⟨42⟩))
          = some c ∧ c.pid = 42)
    ∧ ((∃ c, (some ⟨7⟩ : WebsocatState) = some c)
      ∧ sup_step (some ⟨7⟩) (.opStop (fun _ => .ok ())) = none) :=
  ⟨supervisor_two_state_machine.2.1 none none none none (.ok ())
      (fun _ => .ok ⟨42⟩) 42 rfl,
    supervisor_two_state_machine.2.2.1 (some ⟨7⟩) (fun _ => .ok ()) () rfl⟩

/-- C9: in every state, Status returns true exactly when a handle is stored,
Pid returns the stored handle's identifier when one is stored and empty
otherwise, and Status returns true if and only if Pid returns a non-empty
identifier. -/
theorem status_iff_pid_nonempty (st : WebsocatState) :
    ((is_websocat_running st).1 = .ok true ↔ ∃ c, st = some c)
    ∧ (∀ c, st = some c → (get_websocat_pid st).1 = .ok (some c.pid))
    ∧ (st = none → (get_websocat_pid st).1 = .ok none)
    ∧ ((is_websocat_running st).1 = .ok true
        ↔ ∃ p, (get_websocat_pid st).1 = .ok (some p)) := by
  cases st <;> simp [is_websocat_running, get_websocat_pid]

/-- Witness for `status_iff_pid_nonempty` at a concrete Running state. -/
theorem status_iff_pid_nonempty_witness :
    ((is_websocat_running (some ⟨3⟩)).1 = .ok true ↔ ∃ c, (some ⟨3⟩ : WebsocatState) = some c)
    ∧ (get_websocat_pid (some ⟨3⟩)).1 = .ok (some 3) :=
  ⟨(status_iff_pid_nonempty (some ⟨3⟩)).1,
    (status_iff_pid_nonempty (some ⟨3⟩)).2.1 ⟨3⟩ rfl⟩

/-- C10: Status and Pid are pure queries: in every state they leave the
state cell unchanged, and every operation other than Start and Stop leaves
the state cell unchanged, so only Start and Stop ever write the stored
handle. -/
theorem status_and_pid_are_pure_queries :
    (∀ st, (is_websocat_running st).2 = st ∧ (get_websocat_pid st).2 = st
      ∧ sup_step st .opStatus = st ∧ sup_step st .opGetPid = st)
    ∧ (∀ st op, sup_step st op = st
        ∨ (∃ ws_port tcp_host tcp_port new_sidecar spawn,
            op = .opStart ws_port tcp_host tcp_port new_sidecar spawn)
        ∨ (∃ kill, op = .opStop kill)) := by
  refine ⟨fun st => ⟨rfl, rfl, rfl, rfl⟩, ?_⟩
  intro st op
  cases op with
  | opStart ws_port tcp_host tcp_port new_sidecar spawn =>
      exact .inr (.inl ⟨ws_port, tcp_host, tcp_port, new_sidecar, spawn, rfl⟩)
  | opStop kill => exact .inr (.inr ⟨kill, rfl⟩)
  | opStatus => exact .inl rfl
  | opGetPid => exact .inl rfl
  | childExit code signal => exact .inl rfl
